import Mathlib

/-!
# PhantomJS entry points (`src/main.cpp`)

A shallow embedding of the five functions of `src/main.cpp`:

* standalone build: `inner_main`, `main`;
* library build (`PHANTOM_LIBRARY_TARGET`): `phantomjs_runscript`,
  `phantomrelease`, `phantomjs`.

The class `Phantom` (`phantom.h`), the crash handler (`crashdump.h`), Qt and
`broms_printf` are not part of `src/`.  Every call the entry points make to
one of them is recorded, in program order, in `World.log`; the simple
accessors of `Phantom` are modelled from the specification, and the parts
whose behaviour is not fixed by it (`init`, `execute`, the event loop, what
may throw) are parameters collected in `Engine`.
-/

namespace PhantomJS

/-- An opaque pointer to a `Phantom` object, as passed across the C boundary. -/
abbrev Handle := Nat

/-- What can be thrown through an entry point, as told apart by the three
`catch` clauses of `main` and `phantomjs`. -/
inductive Failure where
  /-- Thrown `std::bad_alloc`. -/
  | bad_alloc
  /-- Thrown `std::exception` other than `std::bad_alloc`, with its `what()`. -/
  | std_exception (what : String)
  /-- Thrown object of any other type. -/
  | nonstandard
  deriving DecidableEq, Repr

/-- One thing the host's callback function does while it runs. -/
inductive HostStep where
  /-- The callback calls `phantomrelease(h, crashed)` on the handle it is
  being notified about. -/
  | release (crashed : Int)
  /-- The callback has an effect that leaves the engine with this return
  value. -/
  | setReturnValue (v : Int)
  deriving DecidableEq, Repr

/-- The host function passed as `emitcb`: a null pointer (`none`) or a function
described by the steps it performs. -/
abbrev emitDataCallback := Option (List HostStep)

/-- Record of one call made by an entry point to code outside `main.cpp`. -/
inductive Call where
  | init_crash_handler
  /-- Qt start-up: `QApplication` and its metadata (standalone only), message
  handler, certificates, and the conversion of the arguments. -/
  | setup
  | phantomInstance
  | newPhantom (list : List String) (emitcb : emitDataCallback) (cookie : Nat)
  | setInstance (h : Handle)
  | init
  | setScriptName (qss : String)
  | execute
  | appExec
  | getInRelease
  | setInRelease
  | returnValue
  | ensureCallback (crashed : Int)
  /-- The host function itself being invoked, with the cookie it was
  registered with. -/
  | emitcb (cookie : Nat) (crashed : Int)
  | delete
  | fputs (s : String)
  | putc (c : Char)
  | fflush
  | print_crash_message
  | broms_printf (fmt : String)
  deriving DecidableEq, Repr

/-- Modelled from the spec: the data members of the class `Phantom`
(`phantom.h` is missing): script identity, return value, in-release guard,
the callback with its context, and whether the terminal notification has been
delivered. -/
structure Phantom where
  args : List String
  scriptName : String
  returnValue : Int
  inRelease : Bool
  emitcb : emitDataCallback
  cookie : Nat
  calledBack : Bool
  deriving DecidableEq, Repr

/-- The process as seen by the entry points: the singleton pointer returned by
`Phantom::instance()`, the engine object the calls act on, whether that object
is within its lifetime (`delete` ends it), and the log of the calls made so
far. -/
structure World where
  singleton : Handle
  phantom : Phantom
  live : Bool
  log : List Call
  deriving DecidableEq, Repr

/-- The behaviour of the missing code that the specification leaves open. -/
structure Engine where
  /-- `init_crash_handler()`: returns, or throws. -/
  crashHandler : Option Failure
  /-- Qt start-up and argument conversion: passes, or throws. -/
  setup : Option Failure
  /-- Result of `new Phantom(...)`: the address of the object, or a throw. -/
  alloc : Except Failure Handle
  /-- `Phantom::init()`. -/
  init : Phantom → Option Failure × Phantom
  /-- `Phantom::execute()`: the start-success indicator, or a throw. -/
  execute : Phantom → Except Failure Bool × Phantom
  /-- `QApplication::exec()`: the event loop, run until the script is done. -/
  appExec : Phantom → Option Failure × Phantom

/-- Append one call to the log. -/
def World.call (w : World) (c : Call) : World :=
  { w with log := w.log ++ [c] }

/-- Modelled from the spec: `Phantom::getInRelease()`, which reads the
in-release guard. -/
def getInRelease (w : World) : Bool × World :=
  (w.phantom.inRelease, w.call .getInRelease)

/-- Modelled from the spec: `Phantom::setInRelease()`, which sets the
in-release guard. -/
def setInRelease (w : World) : World :=
  { w with phantom := { w.phantom with inRelease := true },
           log := w.log ++ [.setInRelease] }

/-- Modelled from the spec: `Phantom::returnValue()`, which reads the return
value. -/
def returnValue (w : World) : Int × World :=
  (w.phantom.returnValue, w.call .returnValue)

/-- Modelled from the spec: `Phantom::setScriptName(path)`, which sets the
pending script identity. -/
def setScriptName (w : World) (qss : String) : World :=
  { w with phantom := { w.phantom with scriptName := qss },
           log := w.log ++ [.setScriptName qss] }

/-- Modelled from the spec: `Phantom::setInstance(self)`, which registers the
singleton. -/
def setInstance (w : World) (h : Handle) : World :=
  { w with singleton := h, log := w.log ++ [.setInstance h] }

/-- Modelled from the spec: the static `Phantom::instance()`, which returns
the current singleton. -/
def instanceOf (w : World) : Handle × World :=
  (w.singleton, w.call .phantomInstance)

/-- The statement `delete phantom`: it ends the lifetime of the engine
object.  A handle to the object dangles from here on. -/
def delete (w : World) : World :=
  { w with live := false, log := w.log ++ [.delete] }

/-- The body of the host callback: its steps in order.  `rel` is the
`phantomrelease` the host calls back into. -/
def runHost (rel : World → Int → Option (Int × World)) :
    List HostStep → World → Option World
  | [], w => some w
  | .release c :: rest, w =>
    match rel w c with
    | none => none
    | some (_, w1) => runHost rel rest w1
  | .setReturnValue v :: rest, w =>
    runHost rel rest { w with phantom := { w.phantom with returnValue := v } }

/-- Modelled from the spec: `Phantom::ensureCallback(crashed)` (missing from
`src/`).  If the user passed a callback function and it was not called yet, it
is called now with the crashed flag; otherwise nothing happens. -/
def ensureCallback (rel : World → Int → Option (Int × World))
    (w : World) (crashed : Int) : Option World :=
  let w := w.call (.ensureCallback crashed)
  match w.phantom.emitcb with
  | none => some w
  | some body =>
    if w.phantom.calledBack then some w
    else
      runHost rel body
        { w with phantom := { w.phantom with calledBack := true },
                 log := w.log ++ [.emitcb w.phantom.cookie crashed] }

/-- `phantomrelease(pphantom, crashed)` (`main.cpp`, lines 155-176), acting on
the engine object `pphantom` points to.  The function dereferences its handle
without any check, so on an object that has been destroyed it has no defined
result (`none`, whatever the fuel).  The host callback may call back into the
function; `fuel` bounds the depth of that nesting. -/
def phantomrelease : Nat → World → Int → Option (Int × World)
  | 0, _, _ => none
  | fuel + 1, w, crashed =>
    if w.live = false then none
    else
      let (guard, w) := getInRelease w
      if guard then some (0, w)
      else
        let w := setInRelease w
        let (retVal, w) := returnValue w
        match ensureCallback (phantomrelease fuel) w crashed with
        | none => none
        | some w => some (retVal, delete w)

/-- The call `phantom->execute()`: the engine decides the start-success
indicator and the new state of the object. -/
def execute (E : Engine) (w : World) : Except Failure Bool × World :=
  ((E.execute w.phantom).1,
    { w with phantom := (E.execute w.phantom).2, log := w.log ++ [.execute] })

/-- The call `phantom->init()`. -/
def init (E : Engine) (w : World) : Option Failure × World :=
  ((E.init w.phantom).1,
    { w with phantom := (E.init w.phantom).2, log := w.log ++ [.init] })

/-- The call `app.exec()`: the event loop of the standalone process. -/
def appExec (E : Engine) (w : World) : Option Failure × World :=
  ((E.appExec w.phantom).1,
    { w with phantom := (E.appExec w.phantom).2, log := w.log ++ [.appExec] })

/-- The Qt start-up statements at the head of `inner_main` and `phantomjs`. -/
def setup (E : Engine) (w : World) : Option Failure × World :=
  (E.setup, w.call .setup)

/-- The call `init_crash_handler()`. -/
def init_crash_handler (E : Engine) (w : World) : Option Failure × World :=
  (E.crashHandler, w.call .init_crash_handler)

/-- Modelled from the spec: the object built by the constructor
`Phantom(0, &list, emitcb, cookie)` (missing from `src/`).  The callback and
its context are bound at creation; the guard is clear, nothing has been
notified yet, and no script is pending. -/
def Phantom.create (list : List String) (emitcb : emitDataCallback) (cookie : Nat) :
    Phantom :=
  { args := list, scriptName := "", returnValue := 0, inRelease := false,
    emitcb := emitcb, cookie := cookie, calledBack := false }

/-- Modelled from the spec: the expression
`new Phantom(0, &list, emitcb, cookie)` (allocation and constructor are
missing from `src/`): it throws, or yields the address of a new object, which
becomes the object the following calls act on. -/
def newPhantom (E : Engine) (w : World) (list : List String)
    (emitcb : emitDataCallback) (cookie : Nat) : Except Failure Handle × World :=
  match E.alloc with
  | .error f => (.error f, w.call (.newPhantom list emitcb cookie))
  | .ok addr =>
    (.ok addr,
      { w with
        phantom := Phantom.create list emitcb cookie,
        live := true,
        log := w.log ++ [.newPhantom list emitcb cookie] })

/-- `phantomjs_runscript(hphantom, script)` (`main.cpp`, lines 136-153). -/
def phantomjs_runscript (E : Engine) (w : World) (hphantom : Handle) (script : String) :
    Except Failure Int × World :=
  let qss := script
  let phantom := hphantom
  let (inst, w) := instanceOf w
  if phantom ≠ inst then (.ok (-1), w)
  else
    let w := setScriptName w qss
    match execute E w with
    | (.error f, w) => (.error f, w)
    | (.ok started, w) =>
      let retVal : Int := if started = false then -1 else 0
      (.ok retVal, w)

/-- The string list that `phantomjs` builds from its arguments: `argv[0]`,
then `argv[1]` to `argv[argc - 1]` appended by the loop. -/
def argList (argv : List String) : List String :=
  argv.headD "" :: argv.drop 1

/-- The `try` block of `phantomjs` (`main.cpp`, lines 181-212).  The middle
component is the value stored through `pphantom`, if the store was reached. -/
def phantomjs_try (E : Engine) (w : World) (argv : List String)
    (emitcb : emitDataCallback) (cookie : Nat) :
    Except Failure Int × Option Handle × World :=
  match setup E w with
  | (some f, w) => (.error f, none, w)
  | (none, w) =>
    let list := argList argv
    match newPhantom E w list emitcb cookie with
    | (.error f, w) => (.error f, none, w)
    | (.ok phantom, w) =>
      let w := setInstance w phantom
      match init E w with
      | (some f, w) => (.error f, none, w)
      | (none, w) =>
        let pphantom := some phantom
        match execute E w with
        | (.error f, w) => (.error f, pphantom, w)
        | (.ok started, w) =>
          let retVal : Int := if started = false then -1 else 0
          (.ok retVal, pphantom, w)

/-- `phantomjs(argc, argv, emitcb, cookie, pphantom)` (`main.cpp`, lines
178-234): the `try` block and its three `catch` clauses. -/
def phantomjs (E : Engine) (w : World) (argv : List String)
    (emitcb : emitDataCallback) (cookie : Nat) : Int × Option Handle × World :=
  match phantomjs_try E w argv emitcb cookie with
  | (.ok retVal, pphantom, w) => (retVal, pphantom, w)
  | (.error .bad_alloc, pphantom, w) =>
    (1, pphantom, w.call (.broms_printf "Memory exhausted.\n"))
  | (.error (.std_exception what), pphantom, w) =>
    (1, pphantom,
      (w.call (.broms_printf "Uncaught C++ exception: ")).call (.broms_printf what))
  | (.error .nonstandard, pphantom, w) =>
    (1, pphantom, w.call (.broms_printf "Uncaught nonstandard exception.\n"))

/-- `inner_main(argc, argv)` (`main.cpp`, lines 44-77). -/
def inner_main (E : Engine) (w : World) : Except Failure Int × World :=
  match setup E w with
  | (some f, w) => (.error f, w)
  | (none, w) =>
    let (_, w) := instanceOf w
    match execute E w with
    | (.error f, w) => (.error f, w)
    | (.ok started, w) =>
      match (if started then appExec E w else (none, w)) with
      | (some f, w) => (.error f, w)
      | (none, w) =>
        let (retVal, w) := returnValue w
        let w := delete w
        (.ok retVal, w)

/-- The `try` block of `main` (`main.cpp`, lines 82-83). -/
def main_try (E : Engine) (w : World) : Except Failure Int × World :=
  match init_crash_handler E w with
  | (some f, w) => (.error f, w)
  | (none, w) => inner_main E w

/-- `main(argc, argv)` (`main.cpp`, lines 79-109): the `try` block and its
three `catch` clauses. -/
def main (E : Engine) (w : World) : Int × World :=
  match main_try E w with
  | (.ok retVal, w) => (retVal, w)
  | (.error .bad_alloc, w) =>
    (1, (w.call (.fputs "Memory exhausted.\n")).call .fflush)
  | (.error (.std_exception what), w) =>
    (1, (((w.call (.fputs "Uncaught C++ exception: ")).call (.fputs what)).call
      (.putc (Char.ofNat 10))).call .print_crash_message)
  | (.error .nonstandard, w) =>
    (1, (w.call (.fputs "Uncaught nonstandard exception.\n")).call .print_crash_message)

/-- The text that a sequence of calls writes to `stderr`. -/
def stderrText : List Call → String
  | [] => ""
  | .fputs s :: rest => s ++ stderrText rest
  | .putc c :: rest => String.singleton c ++ stderrText rest
  | _ :: rest => stderrText rest

/-- The part of the log that `w1` has beyond the log of `w0`. -/
def added (w0 w1 : World) : List Call :=
  w1.log.drop w0.log.length

/-! ## Sample data -/

/-- An engine on which nothing throws and `execute` reports whether a script
name is set. -/
def sampleEngine : Engine where
  crashHandler := none
  setup := none
  alloc := .ok 7
  init := fun p => (none, p)
  execute := fun p => (.ok (p.scriptName != ""), p)
  appExec := fun p => (none, { p with returnValue := 3 })

/-- An engine object with return value 5, a clear guard, and a host callback
that sets the return value to 9 and re-enters `phantomrelease`. -/
def samplePhantom : Phantom where
  args := ["app"]
  scriptName := "a.js"
  returnValue := 5
  inRelease := false
  emitcb := some [.setReturnValue 9, .release 1]
  cookie := 42
  calledBack := false

/-- The process holding `samplePhantom` as singleton at address 7. -/
def sampleWorld : World where
  singleton := 7
  phantom := samplePhantom
  live := true
  log := []

/-- The same process while a release of the singleton is under way. -/
def releasingWorld : World where
  singleton := 7
  phantom := { samplePhantom with inRelease := true }
  live := true
  log := [.getInRelease, .setInRelease]

/-- The sample engine, except that the Qt start-up throws `f`. -/
def throwingEngine (f : Failure) : Engine :=
  { sampleEngine with setup := some f }

/-- The sample engine, except that `Phantom::init()` throws `f`. -/
def initThrowingEngine (f : Failure) : Engine :=
  { sampleEngine with init := fun p => (some f, p) }

/-- Whether a call is `ensureCallback`, with any flag. -/
def isEnsureCallback : Call → Bool
  | .ensureCallback _ => true
  | _ => false

/-- Whether a call is an invocation of the host function. -/
def isEmitcb : Call → Bool
  | .emitcb _ _ => true
  | _ => false

/-! ## Release: the guard and the nested calls -/

/-- With the guard set on a live object, a release does nothing but read the
guard. -/
theorem phantomrelease_of_guard (fuel : Nat) (w : World) (crashed : Int)
    (hlive : w.live = true) (h : w.phantom.inRelease = true) :
    phantomrelease (fuel + 1) w crashed = some (0, w.call .getInRelease) := by
  simp [phantomrelease, getInRelease, hlive, h]

/-- On a destroyed object a release has no defined result, whatever the
fuel. -/
theorem phantomrelease_of_destroyed (fuel : Nat) (w : World) (crashed : Int)
    (hdead : w.live = false) :
    phantomrelease fuel w crashed = none := by
  cases fuel with
  | zero => rfl
  | succ n => simp [phantomrelease, hdead]

/-- While the guard is set, the host callback runs to its end whatever it
does: each nested release only reads the guard, the guard stays set and the
object stays alive. -/
theorem runHost_of_guard (fuel : Nat) (body : List HostStep) :
    ∀ w : World, w.live = true → w.phantom.inRelease = true →
      ∃ w1 reads, runHost (phantomrelease (fuel + 1)) body w = some w1 ∧
        w1.live = true ∧
        w1.phantom.inRelease = true ∧
        w1.singleton = w.singleton ∧
        w1.log = w.log ++ reads ∧
        ∀ c ∈ reads, c = Call.getInRelease := by
  induction body with
  | nil =>
    intro w hlive h
    exact ⟨w, [], rfl, hlive, h, rfl, by simp, by simp⟩
  | cons step rest ih =>
    intro w hlive h
    cases step with
    | release c =>
      obtain ⟨w1, reads, hrun, hv, hg, hs, hl, hr⟩ := ih (w.call .getInRelease) hlive h
      refine ⟨w1, Call.getInRelease :: reads, ?_, hv, hg, hs, ?_, ?_⟩
      · simp [runHost, phantomrelease_of_guard fuel w c hlive h, hrun]
      · simpa [World.call] using hl
      · intro x hx
        rcases List.mem_cons.mp hx with hx | hx
        · exact hx
        · exact hr x hx
    | setReturnValue v =>
      obtain ⟨w1, reads, hrun, hv, hg, hs, hl, hr⟩ :=
        ih { w with phantom := { w.phantom with returnValue := v } } hlive h
      exact ⟨w1, reads, by simpa [runHost] using hrun, hv, hg, hs, hl, hr⟩

/-- The callback is ensured, under a set guard, by one `ensureCallback` call
that invokes the host function at most once and otherwise only lets nested
releases read the guard. -/
theorem ensureCallback_of_guard (fuel : Nat) (w : World) (crashed : Int)
    (hlive : w.live = true) (h : w.phantom.inRelease = true) :
    ∃ w1 mid, ensureCallback (phantomrelease (fuel + 1)) w crashed = some w1 ∧
      w1.live = true ∧
      w1.phantom.inRelease = true ∧
      w1.singleton = w.singleton ∧
      w1.log = w.log ++ Call.ensureCallback crashed :: mid ∧
      (∀ c ∈ mid, c = Call.getInRelease ∨ c = Call.emitcb w.phantom.cookie crashed) ∧
      (mid.filter isEmitcb).length ≤ 1 := by
  unfold ensureCallback
  cases hcb : w.phantom.emitcb with
  | none =>
    refine ⟨w.call (.ensureCallback crashed), [], ?_, hlive, h, rfl,
      by simp [World.call], by simp, by simp⟩
    simp [World.call, hcb]
  | some body =>
    cases hfired : w.phantom.calledBack with
    | true =>
      refine ⟨w.call (.ensureCallback crashed), [], ?_, hlive, h, rfl,
        by simp [World.call], by simp, by simp⟩
      simp [World.call, hcb, hfired]
    | false =>
      obtain ⟨w1, reads, hrun, hv, hg, hs, hl, hr⟩ :=
        runHost_of_guard fuel body
          { w with phantom := { w.phantom with calledBack := true },
                   log := w.log ++ [.ensureCallback crashed] ++
                     [.emitcb w.phantom.cookie crashed] } hlive h
      refine ⟨w1, Call.emitcb w.phantom.cookie crashed :: reads, ?_, hv, hg, hs, ?_, ?_, ?_⟩
      · simpa [World.call, hcb, hfired] using hrun
      · simpa using hl
      · intro x hx
        rcases List.mem_cons.mp hx with hx | hx
        · exact Or.inr hx
        · exact Or.inl (hr x hx)
      · have hnone : reads.filter isEmitcb = [] := by
          apply List.filter_eq_nil_iff.mpr
          intro x hx
          rw [hr x hx]
          simp [isEmitcb]
        simp [List.filter_cons, isEmitcb, hnone]

/-- A release that finds a live object with the guard clear returns the return
value it read before the callback, makes its calls in the order: read guard,
set guard, read return value, ensure callback, destroy, and leaves the object
destroyed. -/
theorem phantomrelease_of_clear (fuel : Nat) (w : World) (crashed : Int)
    (hlive : w.live = true) (h : w.phantom.inRelease = false) :
    ∃ w1 mid, phantomrelease (fuel + 2) w crashed = some (w.phantom.returnValue, w1) ∧
      w1.live = false ∧
      w1.phantom.inRelease = true ∧
      w1.singleton = w.singleton ∧
      w1.log = w.log ++ [Call.getInRelease, Call.setInRelease, Call.returnValue,
        Call.ensureCallback crashed] ++ mid ++ [Call.delete] ∧
      (∀ c ∈ mid, c = Call.getInRelease ∨ c = Call.emitcb w.phantom.cookie crashed) ∧
      (mid.filter isEmitcb).length ≤ 1 := by
  obtain ⟨w1, mid, hens, -, hg, hs, hl, hm, hone⟩ :=
    ensureCallback_of_guard fuel
      { w with phantom := { w.phantom with inRelease := true },
               log := w.log ++ [.getInRelease] ++ [.setInRelease] ++ [.returnValue] }
      crashed hlive rfl
  refine ⟨delete w1, mid, ?_, rfl, hg, hs, ?_, hm, hone⟩
  · rw [phantomrelease]
    simp [getInRelease, setInRelease, returnValue, World.call, hlive, h]
    simp [hlive] at hens
    rw [hens]
  · simp [delete, hl]

/-! ## Release: the claims -/

/-- C2 (as found false): on the sample instance, whose return value is 5, the
first `phantomrelease(h, 1)` returns 5 and destroys the instance, so the second
consecutive `phantomrelease(h, 1)` dereferences a destroyed object and has no
defined result, whatever the fuel: it does not return 5.  A call made while
the guard is set and the instance still alive, as from inside the callback,
does not return the recorded value 5 either: it returns 0. -/
theorem release_twice_not_same :
    (phantomrelease 2 sampleWorld 1).map Prod.fst = some 5 ∧
    (phantomrelease 2 sampleWorld 1).map (fun r => r.2.live) = some false ∧
    (∀ fuel : Nat,
      ((phantomrelease 2 sampleWorld 1).bind fun r => phantomrelease fuel r.2 1) = none) ∧
    releasingWorld.phantom.inRelease = true ∧
    releasingWorld.phantom.returnValue = 5 ∧
    (phantomrelease 1 releasingWorld 1).map Prod.fst = some 0 := by
  refine ⟨by decide, by decide, ?_, by decide, by decide, by decide⟩
  intro fuel
  obtain ⟨w1, mid, hrun, hdead, -⟩ :=
    phantomrelease_of_clear 0 sampleWorld 1 rfl rfl
  have hrun2 : phantomrelease 2 sampleWorld 1 = some (sampleWorld.phantom.returnValue, w1) :=
    hrun
  rw [hrun2]
  exact phantomrelease_of_destroyed fuel w1 1 hdead

/-- C2 (amended): `phantomrelease` on a live instance returns the instance's
return value when it finds the guard clear, and returns 0, having done nothing
but read the guard, when it finds the guard already set, as in a call nested
in the callback of the release in progress.  The result of a call under the
guard therefore equals the result of the call that set the guard exactly when
that result is 0. -/
theorem phantomrelease_result_by_guard (fuel : Nat) (w wn : World) (crashed crashed2 : Int)
    (hlive : w.live = true) (hclear : w.phantom.inRelease = false)
    (hnlive : wn.live = true) (hguard : wn.phantom.inRelease = true) :
    (∃ w1, phantomrelease (fuel + 2) w crashed = some (w.phantom.returnValue, w1)) ∧
    phantomrelease (fuel + 1) wn crashed2 = some (0, wn.call .getInRelease) ∧
    ((phantomrelease (fuel + 1) wn crashed2).map Prod.fst =
        (phantomrelease (fuel + 2) w crashed).map Prod.fst ↔
      w.phantom.returnValue = 0) := by
  obtain ⟨w1, mid, hrun, -⟩ := phantomrelease_of_clear fuel w crashed hlive hclear
  have h2 := phantomrelease_of_guard fuel wn crashed2 hnlive hguard
  refine ⟨⟨w1, hrun⟩, h2, ?_⟩
  rw [h2, hrun]
  simp [eq_comm]

/-- Witness for the amended C2: the sample instance before its release and
during it. -/
theorem phantomrelease_result_by_guard_witness :
    (sampleWorld.live = true ∧ sampleWorld.phantom.inRelease = false ∧
      releasingWorld.live = true ∧ releasingWorld.phantom.inRelease = true) ∧
    (∃ w1, phantomrelease (0 + 2) sampleWorld 1 =
      some (sampleWorld.phantom.returnValue, w1)) ∧
    phantomrelease (0 + 1) releasingWorld 1 =
      some (0, releasingWorld.call .getInRelease) ∧
    ((phantomrelease (0 + 1) releasingWorld 1).map Prod.fst =
        (phantomrelease (0 + 2) sampleWorld 1).map Prod.fst ↔
      sampleWorld.phantom.returnValue = 0) :=
  ⟨⟨rfl, rfl, rfl, rfl⟩,
    phantomrelease_result_by_guard 0 sampleWorld releasingWorld 1 1 rfl rfl rfl rfl⟩

/-- C3: one `phantomrelease(h, crashed)` on an instance whose guard is clear
returns, and among the calls it makes, nested releases from the host callback
included, there is exactly one `ensureCallback`, carrying the outer crashed
flag, exactly one `delete` and exactly one `setInRelease`; the guard is set
before `ensureCallback` is reached, and between `ensureCallback` and `delete`
there are only the (at most one) invocation of the host function and the guard
reads of the nested releases.  The instance is destroyed when the call
returns. -/
theorem phantomrelease_ensures_callback_once (fuel : Nat) (w : World) (crashed : Int)
    (hlive : w.live = true) (h : w.phantom.inRelease = false) :
    ∃ r w1 mid, phantomrelease (fuel + 2) w crashed = some (r, w1) ∧
      added w w1 = [Call.getInRelease, Call.setInRelease, Call.returnValue,
        Call.ensureCallback crashed] ++ mid ++ [Call.delete] ∧
      (∀ c ∈ mid, c = Call.getInRelease ∨ c = Call.emitcb w.phantom.cookie crashed) ∧
      (mid.filter isEmitcb).length ≤ 1 ∧
      (added w w1).filter isEnsureCallback = [Call.ensureCallback crashed] ∧
      (added w w1).count Call.delete = 1 ∧
      (added w w1).count Call.setInRelease = 1 ∧
      w1.live = false := by
  obtain ⟨w1, mid, hrun, hdead, -, -, hl, hm, hone⟩ :=
    phantomrelease_of_clear fuel w crashed hlive h
  have hadd : added w w1 = [Call.getInRelease, Call.setInRelease, Call.returnValue,
      Call.ensureCallback crashed] ++ mid ++ [Call.delete] := by
    simp [added, hl]
  have hmid1 : mid.filter isEnsureCallback = [] := by
    apply List.filter_eq_nil_iff.mpr
    intro x hx
    rcases hm x hx with hx | hx <;> simp [hx, isEnsureCallback]
  have hmid2 : mid.count Call.delete = 0 := by
    apply List.count_eq_zero.mpr
    intro hx
    rcases hm _ hx with hx | hx <;> simp at hx
  have hmid3 : mid.count Call.setInRelease = 0 := by
    apply List.count_eq_zero.mpr
    intro hx
    rcases hm _ hx with hx | hx <;> simp at hx
  refine ⟨w.phantom.returnValue, w1, mid, hrun, hadd, hm, hone, ?_, ?_, ?_, hdead⟩
  · rw [hadd]
    simp [List.filter_cons, isEnsureCallback, hmid1]
  · rw [hadd]
    simp [List.count_cons, hmid2]
  · rw [hadd]
    simp [List.count_cons, hmid3]

/-- Witness for C3 on the sample instance, whose callback re-enters the
release. -/
theorem phantomrelease_ensures_callback_once_witness :
    (sampleWorld.live = true ∧ sampleWorld.phantom.inRelease = false) ∧
    ∃ r w1 mid, phantomrelease (0 + 2) sampleWorld 1 = some (r, w1) ∧
      added sampleWorld w1 = [Call.getInRelease, Call.setInRelease, Call.returnValue,
        Call.ensureCallback 1] ++ mid ++ [Call.delete] ∧
      (∀ c ∈ mid, c = Call.getInRelease ∨ c = Call.emitcb sampleWorld.phantom.cookie 1) ∧
      (mid.filter isEmitcb).length ≤ 1 ∧
      (added sampleWorld w1).filter isEnsureCallback = [Call.ensureCallback 1] ∧
      (added sampleWorld w1).count Call.delete = 1 ∧
      (added sampleWorld w1).count Call.setInRelease = 1 ∧
      w1.live = false :=
  ⟨⟨rfl, rfl⟩, phantomrelease_ensures_callback_once 0 sampleWorld 1 rfl rfl⟩

/-- C4: on an instance whose guard is already set, `phantomrelease(h, crashed)`
returns at once (with 0): the only call it makes is the read of the guard, so
the return value is neither read nor changed, `ensureCallback` is not invoked,
the instance is not destroyed, and the guard, like every other field, is as
before. -/
theorem phantomrelease_guard_set_no_effect (fuel : Nat) (w : World) (crashed : Int)
    (hlive : w.live = true) (h : w.phantom.inRelease = true) :
    ∃ w1, phantomrelease (fuel + 1) w crashed = some (0, w1) ∧
      w1.phantom = w.phantom ∧
      w1.singleton = w.singleton ∧
      w1.live = true ∧
      w1.phantom.inRelease = true ∧
      added w w1 = [Call.getInRelease] := by
  refine ⟨w.call .getInRelease, phantomrelease_of_guard fuel w crashed hlive h, rfl, rfl,
    hlive, h, ?_⟩
  simp [added, World.call]

/-- Witness for C4 on the sample instance during a release. -/
theorem phantomrelease_guard_set_no_effect_witness :
    (releasingWorld.live = true ∧ releasingWorld.phantom.inRelease = true) ∧
    ∃ w1, phantomrelease (0 + 1) releasingWorld 1 = some (0, w1) ∧
      w1.phantom = releasingWorld.phantom ∧
      w1.singleton = releasingWorld.singleton ∧
      w1.live = true ∧
      w1.phantom.inRelease = true ∧
      added releasingWorld w1 = [Call.getInRelease] :=
  ⟨⟨rfl, rfl⟩, phantomrelease_guard_set_no_effect 0 releasingWorld 1 rfl rfl⟩

/-- C10 (as found false): on the sample instance, whose return value is 5 and
whose callback leaves it at 9, `phantomrelease(h, 0)` returns 5 although the
return value after the callback has been ensured is 9; the return value is
read before `ensureCallback`, not after it. -/
theorem phantomrelease_reads_before_callback :
    sampleWorld.phantom.inRelease = false ∧
    (phantomrelease 2 sampleWorld 0).map
        (fun r => (r.1, r.2.phantom.returnValue, r.2.log)) =
      some (5, 9, [Call.getInRelease, Call.setInRelease, Call.returnValue,
        Call.ensureCallback 0, Call.emitcb 42 0, Call.getInRelease, Call.delete]) := by
  decide

/-- C10 (amended): on an instance whose guard is clear,
`phantomrelease(h, crashed)` performs its steps in the order: set the guard,
read `returnValue()`, ensure the callback has fired (with the crashed flag),
destroy the instance; the value it returns is the instance's return value as
it stood before the callback was ensured. -/
theorem phantomrelease_order (fuel : Nat) (w : World) (crashed : Int)
    (hlive : w.live = true) (h : w.phantom.inRelease = false) :
    ∃ w1 mid, phantomrelease (fuel + 2) w crashed = some (w.phantom.returnValue, w1) ∧
      added w w1 = [Call.getInRelease, Call.setInRelease, Call.returnValue,
        Call.ensureCallback crashed] ++ mid ++ [Call.delete] ∧
      (∀ c ∈ mid, c = Call.getInRelease ∨ c = Call.emitcb w.phantom.cookie crashed) ∧
      w1.live = false := by
  obtain ⟨w1, mid, hrun, hdead, -, -, hl, hm, -⟩ :=
    phantomrelease_of_clear fuel w crashed hlive h
  exact ⟨w1, mid, hrun, by simp [added, hl], hm, hdead⟩

/-- Witness for the amended C10 on the sample instance. -/
theorem phantomrelease_order_witness :
    (sampleWorld.live = true ∧ sampleWorld.phantom.inRelease = false) ∧
    ∃ w1 mid, phantomrelease (0 + 2) sampleWorld 0 =
        some (sampleWorld.phantom.returnValue, w1) ∧
      added sampleWorld w1 = [Call.getInRelease, Call.setInRelease, Call.returnValue,
        Call.ensureCallback 0] ++ mid ++ [Call.delete] ∧
      (∀ c ∈ mid, c = Call.getInRelease ∨ c = Call.emitcb sampleWorld.phantom.cookie 0) ∧
      w1.live = false :=
  ⟨⟨rfl, rfl⟩, phantomrelease_order 0 sampleWorld 0 rfl rfl⟩

/-! ## Running a script on a handle -/

/-- C1: for a handle different from the current singleton and any script text,
`phantomjs_runscript(h, text)` returns -1, and the only call it makes is the
read of `Phantom::instance()`: `setScriptName` and `execute` are not invoked,
and the engine object, with its script identity and return value, is as
before. -/
theorem phantomjs_runscript_mismatch (E : Engine) (w : World) (h : Handle)
    (script : String) (hne : h ≠ w.singleton) :
    ∃ w1, phantomjs_runscript E w h script = (.ok (-1), w1) ∧
      w1.phantom = w.phantom ∧
      w1.phantom.scriptName = w.phantom.scriptName ∧
      w1.phantom.returnValue = w.phantom.returnValue ∧
      w1.singleton = w.singleton ∧
      added w w1 = [Call.phantomInstance] := by
  refine ⟨w.call .phantomInstance, ?_, rfl, rfl, rfl, rfl, ?_⟩
  · simp [phantomjs_runscript, instanceOf, hne]
  · simp [added, World.call]

/-- Witness for C1: the handle 8 on the sample process, whose singleton is 7. -/
theorem phantomjs_runscript_mismatch_witness :
    (8 : Handle) ≠ sampleWorld.singleton ∧
    ∃ w1, phantomjs_runscript sampleEngine sampleWorld 8 "true" = (.ok (-1), w1) ∧
      w1.phantom = sampleWorld.phantom ∧
      w1.phantom.scriptName = sampleWorld.phantom.scriptName ∧
      w1.phantom.returnValue = sampleWorld.phantom.returnValue ∧
      w1.singleton = sampleWorld.singleton ∧
      added sampleWorld w1 = [Call.phantomInstance] :=
  ⟨by decide, phantomjs_runscript_mismatch sampleEngine sampleWorld 8 "true" (by decide)⟩

/-- C6: for the handle equal to the current singleton, when `execute` returns,
`phantomjs_runscript(h, text)` makes exactly the calls `instance()`,
`setScriptName(text)`, `execute()` in this order, `execute` acting on the
object with the new script name, and returns 0 if `execute` returned true and
-1 if it returned false.  For every handle, the result is 0 exactly when the
handle is the singleton and `execute` returns true, and a returned value is
never anything but 0 or -1. -/
theorem phantomjs_runscript_match (E : Engine) (w : World) (script : String) :
    (∀ started p1,
      E.execute { w.phantom with scriptName := script } = (.ok started, p1) →
      phantomjs_runscript E w w.singleton script =
        (.ok (if started then 0 else -1),
          { singleton := w.singleton, phantom := p1, live := w.live,
            log := w.log ++ [Call.phantomInstance, Call.setScriptName script,
              Call.execute] })) ∧
    (∀ h : Handle, (phantomjs_runscript E w h script).1 = .ok 0 ↔
      (h = w.singleton ∧
        (E.execute { w.phantom with scriptName := script }).1 = .ok true)) ∧
    (∀ (h : Handle) (r : Int),
      (phantomjs_runscript E w h script).1 = .ok r → r = 0 ∨ r = -1) := by
  refine ⟨?_, ?_, ?_⟩
  · intro started p1 hE
    cases started <;>
      simp [phantomjs_runscript, instanceOf, setScriptName, execute, World.call, hE]
  · intro h
    by_cases hh : h = w.singleton
    · subst hh
      rcases hE : E.execute { w.phantom with scriptName := script } with ⟨(f | b), p1⟩
      · simp [phantomjs_runscript, instanceOf, setScriptName, execute, World.call, hE]
      · cases b <;>
          simp [phantomjs_runscript, instanceOf, setScriptName, execute, World.call, hE]
    · simp [phantomjs_runscript, instanceOf, hh]
  · intro h r
    by_cases hh : h = w.singleton
    · subst hh
      rcases hE : E.execute { w.phantom with scriptName := script } with ⟨(f | b), p1⟩
      · simp [phantomjs_runscript, instanceOf, setScriptName, execute, World.call, hE]
      · cases b <;>
          simp [phantomjs_runscript, instanceOf, setScriptName, execute, World.call, hE]
        · intro hr
          exact Or.inr hr.symm
        · intro hr
          exact Or.inl hr.symm
    · simp [phantomjs_runscript, instanceOf, hh]
      intro hr
      exact Or.inr hr.symm

/-- Witness for C6: the script text "true" run on the sample singleton. -/
theorem phantomjs_runscript_match_witness :
    sampleEngine.execute { sampleWorld.phantom with scriptName := "true" } =
      (.ok true, { sampleWorld.phantom with scriptName := "true" }) ∧
    phantomjs_runscript sampleEngine sampleWorld sampleWorld.singleton "true" =
      (.ok (if true then 0 else -1),
        { singleton := sampleWorld.singleton,
          phantom := { sampleWorld.phantom with scriptName := "true" },
          live := sampleWorld.live,
          log := sampleWorld.log ++ [Call.phantomInstance, Call.setScriptName "true",
            Call.execute] }) :=
  ⟨rfl,
    (phantomjs_runscript_match sampleEngine sampleWorld "true").1 true
      { sampleWorld.phantom with scriptName := "true" } rfl⟩

/-! ## The embedding entry call -/

/-- C5: when nothing throws, `phantomjs(argc, argv, cb, cookie, &h)` makes
exactly the calls start-up, `new Phantom(0, &list, cb, cookie)`,
`setInstance`, `init`, `execute` in this order; the new object is bound to
`cb` and `cookie`, it is the singleton afterwards, its address is what is
stored through `h`, and the status is 0 if `execute` returned true and -1
otherwise (so it is 0 exactly when `execute` returned true).  No `delete` is
among the calls, whatever the status. -/
theorem phantomjs_starts (E : Engine) (w : World) (argv : List String)
    (emitcb : emitDataCallback) (cookie : Nat) (addr : Handle) (started : Bool)
    (p1 p2 : Phantom)
    (hsetup : E.setup = none) (halloc : E.alloc = .ok addr)
    (hinit : E.init (Phantom.create (argList argv) emitcb cookie)
      = (none, p1))
    (hexec : E.execute p1 = (.ok started, p2)) :
    phantomjs E w argv emitcb cookie =
      ((if started then 0 else -1), some addr,
        { singleton := addr, phantom := p2, live := true,
          log := w.log ++ [Call.setup,
            Call.newPhantom (argList argv) emitcb cookie,
            Call.setInstance addr, Call.init, Call.execute] }) ∧
    (Phantom.create (argList argv) emitcb cookie).emitcb = emitcb ∧
    (Phantom.create (argList argv) emitcb cookie).cookie = cookie ∧
    ((phantomjs E w argv emitcb cookie).1 = 0 ↔ started = true) ∧
    ((phantomjs E w argv emitcb cookie).1 = -1 ↔ started = false) ∧
    Call.delete ∉ added w (phantomjs E w argv emitcb cookie).2.2 := by
  have hrun : phantomjs E w argv emitcb cookie =
      ((if started then 0 else -1), some addr,
        { singleton := addr, phantom := p2, live := true,
          log := w.log ++ [Call.setup,
            Call.newPhantom (argList argv) emitcb cookie,
            Call.setInstance addr, Call.init, Call.execute] }) := by
    cases started <;>
      simp [phantomjs, phantomjs_try, setup, newPhantom, setInstance, init, execute,
        World.call, hsetup, halloc, hinit, hexec]
  refine ⟨hrun, rfl, rfl, ?_, ?_, ?_⟩
  · rw [hrun]
    cases started <;> simp
  · rw [hrun]
    cases started <;> simp
  · rw [hrun]
    simp [added]

/-- Witness for C5: the sample engine started with the single argument "app",
where `execute` reports a start failure because no script is pending. -/
theorem phantomjs_starts_witness :
    phantomjs sampleEngine sampleWorld ["app"] none 3 =
      ((if false then 0 else -1), some 7,
        { singleton := 7, phantom := Phantom.create ["app"] none 3, live := true,
          log := sampleWorld.log ++ [Call.setup, Call.newPhantom ["app"] none 3,
            Call.setInstance 7, Call.init, Call.execute] }) :=
  (phantomjs_starts sampleEngine sampleWorld ["app"] none 3 7 false
    (Phantom.create ["app"] none 3) (Phantom.create ["app"] none 3) rfl rfl rfl rfl).1

/-- C8 (the code at the failing input): when `init()` throws, inside
`phantomjs`, a `std::exception` described as "boom", or an object of another
type, the function returns 1 after reporting through `broms_printf` only;
`print_crash_message`, the dump path that the claim, the comment above the
`catch` clauses and the sibling clauses of `main` call for, is not invoked.
On the same two failures `main` does invoke it. -/
theorem phantomjs_no_dump :
    phantomjs (initThrowingEngine (.std_exception "boom")) sampleWorld ["app"] none 3 =
      (1, none,
        { singleton := 7, phantom := Phantom.create ["app"] none 3, live := true,
          log := [Call.setup, Call.newPhantom ["app"] none 3, Call.setInstance 7,
            Call.init, Call.broms_printf "Uncaught C++ exception: ",
            Call.broms_printf "boom"] }) ∧
    phantomjs (initThrowingEngine .nonstandard) sampleWorld ["app"] none 3 =
      (1, none,
        { singleton := 7, phantom := Phantom.create ["app"] none 3, live := true,
          log := [Call.setup, Call.newPhantom ["app"] none 3, Call.setInstance 7,
            Call.init, Call.broms_printf "Uncaught nonstandard exception.\n"] }) ∧
    Call.print_crash_message ∉
      (phantomjs (initThrowingEngine (.std_exception "boom")) sampleWorld
        ["app"] none 3).2.2.log ∧
    Call.print_crash_message ∉
      (phantomjs (initThrowingEngine .nonstandard) sampleWorld ["app"] none 3).2.2.log ∧
    Call.print_crash_message ∈
      (main (throwingEngine (.std_exception "boom")) sampleWorld).2.log ∧
    Call.print_crash_message ∈ (main (throwingEngine .nonstandard) sampleWorld).2.log := by
  decide

/-! ## The standalone entry point -/

/-- C7: `main` handles every failure escaping `init_crash_handler` or
`inner_main` in one of three ways, returning 1 in each.  An allocation failure
writes `"Memory exhausted.\n"` and flushes, without `print_crash_message`; any
other `std::exception` writes `"Uncaught C++ exception: "`, the description
and a newline, then calls `print_crash_message` once; any other thrown object
writes `"Uncaught nonstandard exception.\n"`, then calls `print_crash_message`
once.  When nothing is thrown, `main` returns the result of `inner_main` and
makes no further call. -/
theorem main_failure_boundary (E : Engine) (w : World) :
    (∀ wb, main_try E w = (.error .bad_alloc, wb) →
      main E w = (1, { wb with log := wb.log ++
        [Call.fputs "Memory exhausted.\n", Call.fflush] }) ∧
      stderrText (added wb (main E w).2) = "Memory exhausted.\n" ∧
      (added wb (main E w).2).count Call.print_crash_message = 0) ∧
    (∀ what wb, main_try E w = (.error (.std_exception what), wb) →
      main E w = (1, { wb with log := wb.log ++
        [Call.fputs "Uncaught C++ exception: ", Call.fputs what,
          Call.putc (Char.ofNat 10), Call.print_crash_message] }) ∧
      stderrText (added wb (main E w).2) = "Uncaught C++ exception: " ++ what ++ "\n" ∧
      (added wb (main E w).2).count Call.print_crash_message = 1) ∧
    (∀ wb, main_try E w = (.error .nonstandard, wb) →
      main E w = (1, { wb with log := wb.log ++
        [Call.fputs "Uncaught nonstandard exception.\n", Call.print_crash_message] }) ∧
      stderrText (added wb (main E w).2) = "Uncaught nonstandard exception.\n" ∧
      (added wb (main E w).2).count Call.print_crash_message = 1) ∧
    (∀ f wb, main_try E w = (.error f, wb) → (main E w).1 = 1) ∧
    (∀ r wb, main_try E w = (.ok r, wb) → main E w = (r, wb)) := by
  refine ⟨?_, ?_, ?_, ?_, ?_⟩
  · intro wb h
    have hm : main E w = (1, { wb with log := wb.log ++
        [Call.fputs "Memory exhausted.\n", Call.fflush] }) := by
      simp [main, h, World.call]
    refine ⟨hm, ?_, ?_⟩
    · rw [hm]
      simp [added, stderrText]
    · rw [hm]
      simp [added]
  · intro what wb h
    have hm : main E w = (1, { wb with log := wb.log ++
        [Call.fputs "Uncaught C++ exception: ", Call.fputs what,
          Call.putc (Char.ofNat 10), Call.print_crash_message] }) := by
      simp [main, h, World.call]
    refine ⟨hm, ?_, ?_⟩
    · rw [hm]
      have hnl : String.singleton (Char.ofNat 10) = "\n" := by decide
      simp [added, stderrText, hnl, String.append_assoc]
    · rw [hm]
      simp [added]
  · intro wb h
    have hm : main E w = (1, { wb with log := wb.log ++
        [Call.fputs "Uncaught nonstandard exception.\n", Call.print_crash_message] }) := by
      simp [main, h, World.call]
    refine ⟨hm, ?_, ?_⟩
    · rw [hm]
      simp [added, stderrText]
    · rw [hm]
      simp [added]
  · intro f wb h
    cases f <;> simp [main, h]
  · intro r wb h
    simp [main, h]

/-- Witness for C7: the three kinds of failure thrown by the start-up of
`inner_main`, and a run in which nothing is thrown. -/
theorem main_failure_boundary_witness :
    (main_try (throwingEngine .bad_alloc) sampleWorld =
        (.error .bad_alloc, (sampleWorld.call .init_crash_handler).call .setup) ∧
      (main (throwingEngine .bad_alloc) sampleWorld).1 = 1) ∧
    (main_try (throwingEngine (.std_exception "boom")) sampleWorld =
        (.error (.std_exception "boom"),
          (sampleWorld.call .init_crash_handler).call .setup) ∧
      stderrText (added ((sampleWorld.call .init_crash_handler).call .setup)
        (main (throwingEngine (.std_exception "boom")) sampleWorld).2) =
        "Uncaught C++ exception: " ++ "boom" ++ "\n") ∧
    (main_try (throwingEngine .nonstandard) sampleWorld =
        (.error .nonstandard, (sampleWorld.call .init_crash_handler).call .setup) ∧
      (added ((sampleWorld.call .init_crash_handler).call .setup)
        (main (throwingEngine .nonstandard) sampleWorld).2).count
          Call.print_crash_message = 1) ∧
    (main_try sampleEngine sampleWorld = (.ok 3, (main sampleEngine sampleWorld).2) ∧
      main sampleEngine sampleWorld = (3, (main sampleEngine sampleWorld).2)) :=
  ⟨⟨rfl, (main_failure_boundary (throwingEngine .bad_alloc) sampleWorld).2.2.2.1
      .bad_alloc _ rfl⟩,
    ⟨rfl, ((main_failure_boundary (throwingEngine (.std_exception "boom")) sampleWorld).2.1
      "boom" _ rfl).2.1⟩,
    ⟨rfl, ((main_failure_boundary (throwingEngine .nonstandard) sampleWorld).2.2.1
      _ rfl).2.2⟩,
    ⟨rfl, (main_failure_boundary sampleEngine sampleWorld).2.2.2.2 3 _ rfl⟩⟩

/-- C9: in the standalone path, when nothing throws, `main` makes the calls
`init_crash_handler`, start-up, `instance()`, `execute()`, then `app.exec()`
if and only if `execute` returned true, then `returnValue()`, then `delete`,
in this order.  The value it returns is the return value of the engine as it
is after the event loop (or right after `execute` when that returned false),
and the instance is destroyed exactly once, after the return value is read. -/
theorem main_returns_engine_value (E : Engine) (w : World) (started : Bool)
    (p1 p2 : Phantom)
    (hcrash : E.crashHandler = none) (hsetup : E.setup = none)
    (hexec : E.execute w.phantom = (.ok started, p1))
    (hloop : started = true → E.appExec p1 = (none, p2)) :
    main E w =
      ((if started then p2 else p1).returnValue,
        { singleton := w.singleton, phantom := if started then p2 else p1,
          live := false,
          log := w.log ++ [Call.init_crash_handler, Call.setup, Call.phantomInstance,
            Call.execute] ++ (if started then [Call.appExec] else []) ++
            [Call.returnValue, Call.delete] }) ∧
    (Call.appExec ∈ added w (main E w).2 ↔ started = true) ∧
    (added w (main E w).2).count Call.delete = 1 ∧
    (added w (main E w).2).count Call.returnValue = 1 ∧
    (added w (main E w).2).getLast? = some Call.delete := by
  have hm : main E w =
      ((if started then p2 else p1).returnValue,
        { singleton := w.singleton, phantom := if started then p2 else p1,
          live := false,
          log := w.log ++ [Call.init_crash_handler, Call.setup, Call.phantomInstance,
            Call.execute] ++ (if started then [Call.appExec] else []) ++
            [Call.returnValue, Call.delete] }) := by
    cases started with
    | false =>
      simp [main, main_try, init_crash_handler, inner_main, setup, instanceOf, execute,
        returnValue, delete, World.call, hcrash, hsetup, hexec]
    | true =>
      simp [main, main_try, init_crash_handler, inner_main, setup, instanceOf, execute,
        appExec, returnValue, delete, World.call, hcrash, hsetup, hexec, hloop rfl]
  refine ⟨hm, ?_, ?_, ?_, ?_⟩ <;> rw [hm] <;> cases started <;> simp [added]

/-- Witness for C9: the sample engine with a pending script, so that the event
loop runs and leaves the return value 3. -/
theorem main_returns_engine_value_witness :
    main sampleEngine sampleWorld =
      ((if true then { samplePhantom with returnValue := 3 } else
          samplePhantom).returnValue,
        { singleton := sampleWorld.singleton,
          phantom := if true then { samplePhantom with returnValue := 3 } else
            samplePhantom,
          live := false,
          log := sampleWorld.log ++ [Call.init_crash_handler, Call.setup,
            Call.phantomInstance, Call.execute] ++ (if true then [Call.appExec] else []) ++
            [Call.returnValue, Call.delete] }) :=
  (main_returns_engine_value sampleEngine sampleWorld true samplePhantom
    { samplePhantom with returnValue := 3 } rfl rfl rfl (fun _ => rfl)).1

end PhantomJS
